/-
  Verification of the Orbital Temple satellite firmware (v1.21) control plane.

  Shallow embedding of the firmware's pure logic: CRC32 checkpointing
  (radiation.cpp), TMR voting (main/radiation.h), message validation
  (loop.cpp / config.cpp), the antenna deployment state machine (loop.cpp),
  beacon interval selection (config.cpp), image chunk transfer (image.cpp)
  and the first-contact accelerometer flag (accel.cpp).  Machine integers
  are modelled as Nat with explicit reduction modulo 2^32 where the C code
  relies on unsigned wrap; the nonvolatile EEPROM is a byte map Nat -> Nat;
  the HMAC-SHA256 primitive (external, per mbedtls) is an oracle parameter;
  downlink transmissions (sendMessage) are collected into lists.
-/
import Mathlib

namespace OrbitalTemple

/-- 2^32, the modulus of `unsigned long` / `uint32_t` arithmetic on the ESP32. -/
def U32 : Nat := 4294967296

/-- Unsigned 32-bit subtraction `a - b`, as used for every
`millis()`-interval comparison (`now - then` on `unsigned long`). -/
def wrapSub (a b : Nat) : Nat := (a + (U32 - b % U32)) % U32

/-! ## CRC32 (src/radiation.cpp, lines 44-120)

`crc32_list` holds the literal 256 table constants of `crc32_table` in
radiation.cpp; bytes and the running CRC are `Nat` values below 2^8 / 2^32. -/

/-- The 256 table constants from `crc32_table` in radiation.cpp. -/
def crc32_list : List Nat :=
  [0x00000000, 0x77073096, 0xEE0E612C, 0x990951BA, 0x076DC419, 0x706AF48F,
   0xE963A535, 0x9E6495A3, 0x0EDB8832, 0x79DCB8A4, 0xE0D5E91E, 0x97D2D988,
   0x09B64C2B, 0x7EB17CBD, 0xE7B82D07, 0x90BF1D91, 0x1DB71064, 0x6AB020F2,
   0xF3B97148, 0x84BE41DE, 0x1ADAD47D, 0x6DDDE4EB, 0xF4D4B551, 0x83D385C7,
   0x136C9856, 0x646BA8C0, 0xFD62F97A, 0x8A65C9EC, 0x14015C4F, 0x63066CD9,
   0xFA0F3D63, 0x8D080DF5, 0x3B6E20C8, 0x4C69105E, 0xD56041E4, 0xA2677172,
   0x3C03E4D1, 0x4B04D447, 0xD20D85FD, 0xA50AB56B, 0x35B5A8FA, 0x42B2986C,
   0xDBBBBBD6, 0xACBCCB40, 0x32D86CE3, 0x45DF5C75, 0xDCD60DCF, 0xABD13D59,
   0x26D930AC, 0x51DE003A, 0xC8D75180, 0xBFD06116, 0x21B4F4B5, 0x56B3C423,
   0xCFBA9599, 0xB8BDA50F, 0x2802B89E, 0x5F058808, 0xC60CD9B2, 0xB10BE924,
   0x2F6F7C87, 0x58684C11, 0xC1611DAB, 0xB6662D3D, 0x76DC4190, 0x01DB7106,
   0x98D220BC, 0xEFD5102A, 0x71B18589, 0x06B6B51F, 0x9FBFE4A5, 0xE8B8D433,
   0x7807C9A2, 0x0F00F934, 0x9609A88E, 0xE10E9818, 0x7F6A0DBB, 0x086D3D2D,
   0x91646C97, 0xE6635C01, 0x6B6B51F4, 0x1C6C6162, 0x856530D8, 0xF262004E,
   0x6C0695ED, 0x1B01A57B, 0x8208F4C1, 0xF50FC457, 0x65B0D9C6, 0x12B7E950,
   0x8BBEB8EA, 0xFCB9887C, 0x62DD1DDF, 0x15DA2D49, 0x8CD37CF3, 0xFAD44C65,
   0x4DB26158, 0x3AB551CE, 0xA3BC0074, 0xD4BB30E2, 0x4ADFA541, 0x3DD895D7,
   0xA4D1C46D, 0xD3D6F4FB, 0x4369E96A, 0x346ED9FC, 0xAD678846, 0xDA60B8D0,
   0x44042D73, 0x33031DE5, 0xAA0A4C5F, 0xDD0D7CC9, 0x5005713C, 0x270241AA,
   0xBE0B1010, 0xC90C2086, 0x5768B525, 0x206F85B3, 0xB966D409, 0xCE61E49F,
   0x5EDEF90E, 0x29D9C998, 0xB0D09822, 0xC7D7A8B4, 0x59B33D17, 0x2EB40D81,
   0xB7BD5C3B, 0xC0BA6CAD, 0xEDB88320, 0x9ABFB3B6, 0x03B6E20C, 0x74B1D29A,
   0xEAD54739, 0x9DD277AF, 0x04DB2615, 0x73DC1683, 0xE3630B12, 0x94643B84,
   0x0D6D6A3E, 0x7A6A5AA8, 0xE40ECF0B, 0x9309FF9D, 0x0A00AE27, 0x7D079EB1,
   0xF00F9344, 0x8708A3D2, 0x1E01F268, 0x6906C2FE, 0xF762575D, 0x806567CB,
   0x196C3671, 0x6E6B06E7, 0xFED41B76, 0x89D32BE0, 0x10DA7A5A, 0x67DD4ACC,
   0xF9B9DF6F, 0x8EBEEFF9, 0x17B7BE43, 0x60B08ED5, 0xD6D6A3E8, 0xA1D1937E,
   0x38D8C2C4, 0x4FDFF252, 0xD1BB67F1, 0xA6BC5767, 0x3FB506DD, 0x48B2364B,
   0xD80D2BDA, 0xAF0A1B4C, 0x36034AF6, 0x41047A60, 0xDF60EFC3, 0xA867DF55,
   0x316E8EEF, 0x4669BE79, 0xCB61B38C, 0xBC66831A, 0x256FD2A0, 0x5268E236,
   0xCC0C7795, 0xBB0B4703, 0x220216B9, 0x5505262F, 0xC5BA3BBE, 0xB2BD0B28,
   0x2BB45A92, 0x5CB36A04, 0xC2D7FFA7, 0xB5D0CF31, 0x2CD99E8B, 0x5BDEAE1D,
   0x9B64C2B0, 0xEC63F226, 0x756AA39C, 0x026D930A, 0x9C0906A9, 0xEB0E363F,
   0x72076785, 0x05005713, 0x95BF4A82, 0xE2B87A14, 0x7BB12BAE, 0x0CB61B38,
   0x92D28E9B, 0xE5D5BE0D, 0x7CDCEFB7, 0x0BDBDF21, 0x86D3D2D4, 0xF1D4E242,
   0x68DDB3F8, 0x1FDA836E, 0x81BE16CD, 0xF6B9265B, 0x6FB077E1, 0x18B74777,
   0x88085AE6, 0xFF0F6A70, 0x66063BCA, 0x11010B5C, 0x8F659EFF, 0xF862AE69,
   0x616BFFD3, 0x166CCF45, 0xA00AE278, 0xD70DD2EE, 0x4E048354, 0x3903B3C2,
   0xA7672661, 0xD06016F7, 0x4969474D, 0x3E6E77DB, 0xAED16A4A, 0xD9D65ADC,
   0x40DF0B66, 0x37D83BF0, 0xA9BCAE53, 0xDEBB9EC5, 0x47B2CF7F, 0x30B5FFE9,
   0xBDBDF21C, 0xCABAC28A, 0x53B39330, 0x24B4A3A6, 0xBAD03605, 0xCDD70693,
   0x54DE5729, 0x23D967BF, 0xB3667A2E, 0xC4614AB8, 0x5D681B02, 0x2A6F2B94,
   0xB40BBE37, 0xC30C8EA1, 0x5A05DF1B, 0x2D02EF8D]

/-- Table lookup, as `crc32_table[index]` in C (the index is always < 256). -/
def crc32_table (i : Nat) : Nat := crc32_list.getD i 0

/-- One iteration of the loop body of `calculateCRC32`:
`index = (crc ^ data[i]) & 0xFF; crc = (crc >> 8) ^ crc32_table[index]`. -/
def crcUpd (crc b : Nat) : Nat := (crc >>> 8) ^^^ crc32_table ((crc ^^^ b) &&& 0xFF)

/-- `calculateCRC32` from radiation.cpp: init 0xFFFFFFFF, table-driven loop,
final XOR with 0xFFFFFFFF. -/
def calculateCRC32 (data : List Nat) : Nat :=
  (data.foldl crcUpd 0xFFFFFFFF) ^^^ 0xFFFFFFFF

/-! ## TMR voting (src/main/radiation.h, lines 43-108) -/

/-- Triple Modular Redundancy container (`struct TMR`). -/
structure TMR (α : Type _) where
  copy1 : α
  copy2 : α
  copy3 : α
deriving DecidableEq

/-- `tmrWrite`: set all three copies. -/
def tmrWrite (v : α) : TMR α := ⟨v, v, v⟩

/-- `tmrRead`: 2-out-of-3 voting; if all three differ, return copy1. -/
def tmrRead [DecidableEq α] (t : TMR α) : α :=
  if t.copy1 = t.copy2 then t.copy1
  else if t.copy1 = t.copy3 then t.copy1
  else if t.copy2 = t.copy3 then t.copy2
  else t.copy1

/-- `tmrScrub`: rewrite every copy disagreeing with the vote; the Bool is
true when at least one copy was corrected (each disjunct is one of the three
conditional copy rewrites in the source). -/
def tmrScrub [DecidableEq α] (t : TMR α) : TMR α × Bool :=
  let correct := tmrRead t
  let c1 := if t.copy1 = correct then t.copy1 else correct
  let c2 := if t.copy2 = correct then t.copy2 else correct
  let c3 := if t.copy3 = correct then t.copy3 else correct
  (⟨c1, c2, c3⟩,
   decide (t.copy1 ≠ correct) || decide (t.copy2 ≠ correct) || decide (t.copy3 ≠ correct))

/-! ## Beacon interval (src/config.cpp, lines 191-213; constants from
src/main/config.h, lines 137-140) -/

def BEACON_INTERVAL_NO_CONTACT : Nat := 60000
def BEACON_INTERVAL_NORMAL : Nat := 3600000
def BEACON_INTERVAL_LOST : Nat := 300000
def BEACON_LOST_THRESHOLD : Nat := 86400000

/-- `getBeaconInterval` from config.cpp, over the globals it reads
(`groundContactEstablished`, `millis()`, `lastGroundContact`). -/
def getBeaconInterval (groundContactEstablished : Bool) (now lastGroundContact : Nat) : Nat :=
  if !groundContactEstablished then BEACON_INTERVAL_NO_CONTACT
  else if BEACON_LOST_THRESHOLD < wrapSub now lastGroundContact then BEACON_INTERVAL_LOST
  else BEACON_INTERVAL_NORMAL

/-! ## Nonvolatile checkpoint (src/radiation.cpp, lines 124-206;
layout from src/main/config.h lines 145-153 and src/main/radiation.h line 122) -/

/-- The EEPROM as a byte map. -/
abbrev EEPROM := Nat → Nat

def EEPROM_MAGIC : Nat := 0xAB
def EEPROM_ADDR_MAGIC : Nat := 0
def EEPROM_ADDR_STATE : Nat := 1
def EEPROM_ADDR_BOOTCOUNT : Nat := 2
def EEPROM_ADDR_DEPLOY_OK : Nat := 6
def EEPROM_ADDR_MISSION_START : Nat := 7
def EEPROM_CRC_OFFSET : Nat := 100
def EEPROM_FIRST_ACCEL_ADDR : Nat := 200

/-- Numeric values of the `MissionState` enum (config.h lines 86-94). -/
def STATE_BOOT : Nat := 0
def STATE_OPERATIONAL : Nat := 4

/-- `EEPROM.write(addr, v)`. -/
def eepromWrite (e : EEPROM) (addr v : Nat) : EEPROM :=
  fun a => if a = addr then v else e a

/-- `EEPROM.put(addr, v)` for a 4-byte little-endian `uint32_t`. -/
def eepromPut32 (e : EEPROM) (addr v : Nat) : EEPROM :=
  eepromWrite (eepromWrite (eepromWrite (eepromWrite e
    addr (v % 256)) (addr + 1) (v / 256 % 256))
    (addr + 2) (v / 65536 % 256)) (addr + 3) (v / 16777216 % 256)

/-- `EEPROM.get(addr, v)` for a 4-byte little-endian `uint32_t`. -/
def eepromGet32 (e : EEPROM) (addr : Nat) : Nat :=
  e addr + e (addr + 1) * 256 + e (addr + 2) * 65536 + e (addr + 3) * 16777216

/-- The CRC-protected window: bytes [0, EEPROM_CRC_OFFSET). -/
def crcWindow (e : EEPROM) : List Nat := (List.range EEPROM_CRC_OFFSET).map e

/-- The RAM globals persisted by the checkpoint (after the TMR sync at the
top of `saveStateWithCRC`): mission state (as its uint8 enum value), boot
count, antenna-deployed flag, and mission start timestamp. -/
structure PersistState where
  currentState : Nat
  bootCount : Nat
  antennaDeployed : Bool
  missionStartTime : Nat
deriving DecidableEq

/-- The field-writing phase of `saveStateWithCRC` (radiation.cpp lines
135-140): magic, state byte, boot count, deployed flag, mission start. -/
def saveFields (e : EEPROM) (s : PersistState) : EEPROM :=
  eepromPut32
    (eepromWrite
      (eepromPut32
        (eepromWrite
          (eepromWrite e EEPROM_ADDR_MAGIC EEPROM_MAGIC)
          EEPROM_ADDR_STATE (s.currentState % 256))
        EEPROM_ADDR_BOOTCOUNT s.bootCount)
      EEPROM_ADDR_DEPLOY_OK (if s.antennaDeployed then 1 else 0))
    EEPROM_ADDR_MISSION_START s.missionStartTime

/-- `saveStateWithCRC` from radiation.cpp: write the fields, CRC32 the first
100 bytes, store the CRC at offset 100. -/
def saveStateWithCRC (e : EEPROM) (s : PersistState) : EEPROM :=
  eepromPut32 (saveFields e s) EEPROM_CRC_OFFSET
    (calculateCRC32 (crcWindow (saveFields e s)))

/-- `loadStateWithCRC` from radiation.cpp.  `none` models `return false`
(bad magic or CRC mismatch).  On success the restored globals are returned:
note that the code reads the saved state byte but then overwrites
`currentState` from the antenna-deployed flag (STATE_OPERATIONAL if
deployed, else STATE_BOOT), so the saved state byte does not reach the
result. -/
def loadStateWithCRC (e : EEPROM) : Option PersistState :=
  if e EEPROM_ADDR_MAGIC ≠ EEPROM_MAGIC then none
  else if eepromGet32 e EEPROM_CRC_OFFSET ≠ calculateCRC32 (crcWindow e) then none
  else
    let deployed := e EEPROM_ADDR_DEPLOY_OK == 1
    some { currentState := if deployed then STATE_OPERATIONAL else STATE_BOOT,
           bootCount := eepromGet32 e EEPROM_ADDR_BOOTCOUNT,
           antennaDeployed := deployed,
           missionStartTime := eepromGet32 e EEPROM_ADDR_MISSION_START }

/-- The state produced by `initRadiationProtection` (radiation.cpp lines
243-272): safe defaults, overwritten by a checkpoint load when one verifies;
the boot counter is incremented on a successful load and is 1 otherwise. -/
def initRadiationProtection (e : EEPROM) : PersistState :=
  match loadStateWithCRC e with
  | some s => { s with bootCount := (s.bootCount + 1) % U32 }
  | none => { currentState := STATE_BOOT, bootCount := 1,
              antennaDeployed := false, missionStartTime := 0 }

/-- A sequence of checkpoint saves. -/
def saveSeq (e : EEPROM) (l : List PersistState) : EEPROM :=
  l.foldl saveStateWithCRC e

/-- Flip bit `j` of the byte at address `k` (a single-event upset in the
nonvolatile store). -/
def flipBit (e : EEPROM) (k j : Nat) : EEPROM :=
  eepromWrite e k (e k ^^^ 2 ^ j)

/-- The nonvolatile effect of `checkFirstContactRecording` (accel.cpp lines
55-80) once a recording starts: `EEPROM.write(EEPROM_FIRST_ACCEL_ADDR, 0xAA)`
followed by commit. -/
def checkFirstContactRecordingWrite (e : EEPROM) : EEPROM :=
  eepromWrite e EEPROM_FIRST_ACCEL_ADDR 0xAA

/-! ## Message codec (src/loop.cpp, lines 129-199)

Arduino `String`s are `List Char`; `verifyHMAC` (an external mbedtls-backed
primitive, config.cpp lines 144-164) is an oracle parameter `hmacOk` taking
the message prefix before the hash mark and the supplied hex digest. -/

/-- Shorthand: the characters of a string literal. -/
def strL (s : String) : List Char := s.data

/-- `path.indexOf("..") != -1`: the path contains two consecutive dots. -/
def containsDotDot : List Char → Bool
  | '.' :: '.' :: _ => true
  | _ :: rest => containsDotDot rest
  | [] => false

/-- The four `indexOf` calls of `validateMessage` plus the presence and
ordering checks: first occurrences of the delimiters, all present and
strictly increasing. -/
def delimIdx (msg : List Char) : Option (Nat × Nat × Nat × Nat) :=
  match msg.findIdx? (· == '-'), msg.findIdx? (· == '&'),
        msg.findIdx? (· == '@'), msg.findIdx? (· == '#') with
  | some dashIdx, some ampIdx, some atIdx, some hashIdx =>
    if dashIdx < ampIdx ∧ ampIdx < atIdx ∧ atIdx < hashIdx then
      some (dashIdx, ampIdx, atIdx, hashIdx)
    else none
  | _, _, _, _ => none

/-- `msg.substring(a, b)`. -/
def subList (msg : List Char) (a b : Nat) : List Char := (msg.drop a).take (b - a)

/-- `validateMessage` from loop.cpp: returns the acceptance verdict along
with the downlink responses it transmits (`sendMessage` calls).  The `data`
field is extracted but never inspected by validation. -/
def validateMessage (hmacOk : List Char → List Char → Bool) (sid msg : List Char) :
    Bool × List (List Char) :=
  if msg.length < 7 then (false, [])
  else if 500 < msg.length then (false, [])
  else
    match delimIdx msg with
    | none => (false, [])
    | some (dashIdx, ampIdx, atIdx, hashIdx) =>
      let satId := subList msg 0 dashIdx
      let command := subList msg (dashIdx + 1) ampIdx
      let path := subList msg (ampIdx + 1) atIdx
      let hmac := msg.drop (hashIdx + 1)
      if satId ≠ sid then (false, [])
      else if !command.all Char.isAlphanum then (false, [])
      else if containsDotDot path then (false, [strL "ERR:PATH_TRAVERSAL_BLOCKED"])
      else if !hmacOk (msg.take hashIdx) hmac then (false, [strL "ERR:AUTH_FAILED"])
      else (true, [])

/-- Modelled from the spec: the acceptance predicate exactly as the claim
states it — length in [7,500], each delimiter occurring exactly once with
strictly increasing positions, satellite id match, nonempty all-alphanumeric
command, no ".." in the path, and HMAC match. -/
def specAccepts (hmacOk : List Char → List Char → Bool) (sid msg : List Char) : Bool :=
  decide (7 ≤ msg.length) && decide (msg.length ≤ 500) &&
  (msg.count '-' == 1) && (msg.count '&' == 1) &&
  (msg.count '@' == 1) && (msg.count '#' == 1) &&
  match delimIdx msg with
  | none => false
  | some (d, a, t, h) =>
    (subList msg 0 d == sid) &&
    !(subList msg (d + 1) a).isEmpty && (subList msg (d + 1) a).all Char.isAlphanum &&
    !containsDotDot (subList msg (a + 1) t) &&
    hmacOk (msg.take h) (msg.drop (h + 1))

/-- The amended acceptance predicate: as `specAccepts`, but requiring only
that each delimiter occur at least once with first occurrences strictly
increasing, and allowing an empty command. -/
def amendedAccepts (hmacOk : List Char → List Char → Bool) (sid msg : List Char) : Bool :=
  decide (7 ≤ msg.length) && decide (msg.length ≤ 500) &&
  match delimIdx msg with
  | none => false
  | some (d, a, t, h) =>
    (subList msg 0 d == sid) &&
    (subList msg (d + 1) a).all Char.isAlphanum &&
    !containsDotDot (subList msg (a + 1) t) &&
    hmacOk (msg.take h) (msg.drop (h + 1))

/-! ## Antenna deployment state machine (src/loop.cpp, lines 355-460;
timing constants from src/main/config.h lines 119-123) -/

def DEPLOY_HEAT_TIME : Nat := 90000
def DEPLOY_COOL_TIME : Nat := 90000
def DEPLOY_RETRY_WAIT : Nat := 900000
def DEPLOY_MAX_RETRIES : Nat := 3

/-- The `AntennaState` enum (config.h lines 97-103). -/
inductive AntennaState
  | idle
  | heating
  | cooling
  | retryWait
  | complete
deriving DecidableEq

/-- The `MissionState` enum (config.h lines 86-94). -/
inductive MissionState
  | boot
  | waitDeploy
  | deploying
  | deployCooling
  | operational
  | transmitting
  | error
deriving DecidableEq

/-- The globals read and written by `handleAntennaDeployment`, plus the
burn-wire GPIO level `r1` (true = HIGH; `digitalWrite(R1, ...)`). -/
structure AntCtx where
  antennaState : AntennaState
  currentState : MissionState
  stateStartTime : Nat
  deployRetryCount : Nat
  antennaDeployed : Bool
  r1 : Bool
  missionStartTime : Nat
deriving DecidableEq

/-- Decimal digits of `n`. -/
def natStr (n : Nat) : List Char := (Nat.repr n).data

/-- `%02lu` formatting. -/
def pad2 (n : Nat) : List Char := if n < 10 then '0' :: natStr n else natStr n

/-- `getMissionTime` from loop.cpp (lines 50-64). -/
def getMissionTime (now missionStartTime : Nat) : List Char :=
  let elapsed := wrapSub now missionStartTime
  let seconds := elapsed / 1000
  let minutes := seconds / 60
  let hours := minutes / 60
  strL "T+" ++ pad2 hours ++ strL ":" ++ pad2 (minutes % 60) ++ strL ":" ++ pad2 (seconds % 60)

/-- `handleAntennaDeployment` from loop.cpp: one tick, given `millis()` and
the continuity-switch reading (true = HIGH = not yet deployed).  Returns the
updated globals and the downlink messages sent during the tick.  The
`saveState()` persistence calls are outside this model. -/
def handleAntennaDeployment (c : AntCtx) (now : Nat) (antSwitch : Bool) :
    AntCtx × List (List Char) :=
  let elapsed := wrapSub now c.stateStartTime
  match c.antennaState with
  | .idle =>
    if antSwitch then
      ({ c with r1 := true, antennaState := .heating, stateStartTime := now }, [])
    else
      ({ c with r1 := false, antennaDeployed := true, antennaState := .complete,
                currentState := .operational },
       [strL "OK:ANTENNA_DEPLOYED|" ++ getMissionTime now c.missionStartTime])
  | .heating =>
    let c1 := if DEPLOY_HEAT_TIME ≤ elapsed then
                { c with r1 := false, antennaState := .cooling, stateStartTime := now }
              else c
    if antSwitch = false then
      ({ c1 with r1 := false, antennaDeployed := true, antennaState := .complete,
                 currentState := .operational },
       [strL "OK:ANTENNA_DEPLOYED|" ++ getMissionTime now c.missionStartTime])
    else (c1, [])
  | .cooling =>
    if DEPLOY_COOL_TIME ≤ elapsed then
      if antSwitch = false then
        ({ c with antennaDeployed := true, antennaState := .complete,
                  currentState := .operational },
         [strL "OK:ANTENNA_DEPLOYED|" ++ getMissionTime now c.missionStartTime])
      else
        let rc := c.deployRetryCount + 1
        if DEPLOY_MAX_RETRIES ≤ rc then
          ({ c with deployRetryCount := rc, currentState := .operational },
           [strL "ERR:ANT_DEPLOY_FAILED|" ++ getMissionTime now c.missionStartTime])
        else
          ({ c with deployRetryCount := rc, antennaState := .retryWait,
                    stateStartTime := now },
           [strL "WARN:ANT_RETRY_WAIT|" ++ getMissionTime now c.missionStartTime])
    else (c, [])
  | .retryWait =>
    let c1 := if DEPLOY_RETRY_WAIT ≤ elapsed then
                { c with antennaState := .idle, stateStartTime := now }
              else c
    if antSwitch = false then
      ({ c1 with antennaDeployed := true, antennaState := .complete,
                 currentState := .operational },
       [strL "OK:ANTENNA_DEPLOYED|" ++ getMissionTime now c.missionStartTime])
    else (c1, [])
  | .complete => (c, [])

/-- A sequence of deployment ticks, each with its `millis()` reading and
switch sample. -/
def antRun (c : AntCtx) (inputs : List (Nat × Bool)) : AntCtx :=
  inputs.foldl (fun s i => (handleAntennaDeployment s i.1 i.2).1) c

/-! ## Image transfer (src/image.cpp; constants from src/image.h lines 24-27)

The SD sink file is a byte list; `File.seek(pos)` + `write` is modelled as an
in-place splice that zero-pads when seeking past the end.  SD availability
and free space are Boolean parameters of `imageStart`. -/

def IMAGE_MAX_SIZE : Nat := 8192
def IMAGE_CHUNK_SIZE : Nat := 128
def IMAGE_MAX_CHUNKS : Nat := 64
def IMAGE_TIMEOUT_MS : Nat := 60000

/-- The `ImageTransferState` enum (image.h lines 30-35). -/
inductive ImageTransferState
  | idle
  | receiving
  | complete
  | error
deriving DecidableEq

/-- The `ImageTransfer` context (image.h lines 38-47); `chunkReceived` is the
64-entry received-chunk mask. -/
structure ImageTransfer where
  state : ImageTransferState
  filename : List Char
  totalChunks : Nat
  receivedChunks : Nat
  expectedSize : Nat
  currentSize : Nat
  lastChunkTime : Nat
  chunkReceived : List Bool
deriving DecidableEq

/-- `initImageTransfer` from image.cpp. -/
def initImageTransfer : ImageTransfer :=
  { state := .idle, filename := [], totalChunks := 0, receivedChunks := 0,
    expectedSize := 0, currentSize := 0, lastChunkTime := 0,
    chunkReceived := List.replicate IMAGE_MAX_CHUNKS false }

/-- The 128 constants of `base64_table` in image.cpp (64 marks an invalid
character). -/
def base64_list : List Nat :=
  [64, 64, 64, 64, 64, 64, 64, 64, 64, 64, 64, 64, 64, 64, 64, 64,
   64, 64, 64, 64, 64, 64, 64, 64, 64, 64, 64, 64, 64, 64, 64, 64,
   64, 64, 64, 64, 64, 64, 64, 64, 64, 64, 64, 62, 64, 64, 64, 63,
   52, 53, 54, 55, 56, 57, 58, 59, 60, 61, 64, 64, 64, 64, 64, 64,
   64, 0, 1, 2, 3, 4, 5, 6, 7, 8, 9, 10, 11, 12, 13, 14,
   15, 16, 17, 18, 19, 20, 21, 22, 23, 24, 25, 64, 64, 64, 64, 64,
   64, 26, 27, 28, 29, 30, 31, 32, 33, 34, 35, 36, 37, 38, 39, 40,
   41, 42, 43, 44, 45, 46, 47, 48, 49, 50, 51, 64, 64, 64, 64, 64]

/-- `base64_table[c]`. -/
def base64_table (i : Nat) : Nat := base64_list.getD i 64

/-- The decode loop of `base64Decode` (image.cpp lines 30-57): 6-bit
accumulator, a byte emitted whenever at least 8 bits are collected, `=`
terminating, non-alphabet bytes skipped, output capped at `cap` bytes.
The C accumulator is a `uint32_t`; since only the low `bitsCollected < 14`
bits are ever extracted, an unbounded Nat accumulator emits the same bytes. -/
def b64Aux : Nat → List Char → Nat → Nat → List Nat
  | _, [], _, _ => []
  | cap, c :: rest, buffer, bitsCollected =>
    if cap = 0 then []
    else if c = '=' then []
    else if 128 ≤ c.toNat then b64Aux cap rest buffer bitsCollected
    else
      let value := base64_table c.toNat
      if value = 64 then b64Aux cap rest buffer bitsCollected
      else
        let buffer1 := (buffer <<< 6) ||| value
        let bits1 := bitsCollected + 6
        if 8 ≤ bits1 then
          ((buffer1 >>> (bits1 - 8)) &&& 0xFF) :: b64Aux (cap - 1) rest buffer1 (bits1 - 8)
        else b64Aux cap rest buffer1 bits1

/-- `base64Decode` from image.cpp. -/
def base64Decode (input : List Char) (maxOutputLen : Nat) : List Nat :=
  b64Aux maxOutputLen input 0 0

/-- Seek to `pos` and write `bs`: splice into the byte list, zero-padding up
to `pos` when the file is shorter. -/
def writeAt (f : List Nat) (pos : Nat) (bs : List Nat) : List Nat :=
  let padded := f ++ List.replicate (pos - f.length) 0
  padded.take pos ++ bs ++ padded.drop (pos + bs.length)

/-- `imageStart` from image.cpp (lines 75-143): parameter validation and
context initialisation.  `sdok` and `hasSpace` stand for the `SDOK` flag and
`hasSDSpace(expectedSize + 1024)`; the temp file is created empty by the
caller of the returned context. -/
def imageStart (ctx : ImageTransfer) (filename : List Char)
    (totalChunks expectedSize : Nat) (sdok hasSpace : Bool) (now : Nat) :
    ImageTransfer × List (List Char) × Bool :=
  if ctx.state = .receiving then (ctx, [strL "ERR:IMG_BUSY"], false)
  else if totalChunks = 0 ∨ IMAGE_MAX_CHUNKS < totalChunks then
    (ctx, [strL "ERR:IMG_INVALID_CHUNKS"], false)
  else if expectedSize = 0 ∨ IMAGE_MAX_SIZE < expectedSize then
    (ctx, [strL "ERR:IMG_TOO_LARGE"], false)
  else if !sdok then (ctx, [strL "ERR:SD_NOT_AVAILABLE"], false)
  else if !hasSpace then (ctx, [strL "ERR:SD_FULL"], false)
  else
    ({ state := .receiving, filename := filename.take 63,
       totalChunks := totalChunks, receivedChunks := 0,
       expectedSize := expectedSize, currentSize := 0, lastChunkTime := now,
       chunkReceived := List.replicate IMAGE_MAX_CHUNKS false },
     [strL "OK:IMG_START:" ++ natStr totalChunks], true)

/-- `imageChunk` from image.cpp (lines 145-212): state and bounds checks,
duplicate detection, base64 decode into a 138-byte buffer, write at offset
`chunkNum * 128`, then bookkeeping.  Returns the updated context, the updated
sink file, the downlink messages, and the C return value. -/
def imageChunk (ctx : ImageTransfer) (file : List Nat) (chunkNum : Nat)
    (base64Data : List Char) (now : Nat) :
    ImageTransfer × List Nat × List (List Char) × Bool :=
  if ctx.state ≠ .receiving then (ctx, file, [strL "ERR:IMG_NOT_STARTED"], false)
  else if ctx.totalChunks ≤ chunkNum then
    (ctx, file, [strL "ERR:IMG_INVALID_CHUNK"], false)
  else if ctx.chunkReceived.getD chunkNum false then
    (ctx, file, [strL "OK:IMG_DUP:" ++ natStr chunkNum], true)
  else
    let decoded := base64Decode base64Data (IMAGE_CHUNK_SIZE + 10)
    if decoded.length = 0 then (ctx, file, [strL "ERR:IMG_DECODE"], false)
    else
      ({ ctx with chunkReceived := ctx.chunkReceived.set chunkNum true,
                  receivedChunks := ctx.receivedChunks + 1,
                  currentSize := ctx.currentSize + decoded.length,
                  lastChunkTime := now },
       writeAt file (chunkNum * IMAGE_CHUNK_SIZE) decoded,
       [strL "OK:IMG_CHUNK:" ++ natStr chunkNum ++ strL "/" ++ natStr ctx.totalChunks],
       true)

/-- Up to 5 missing chunk indices (the reporting loop of `imageEnd`). -/
def missingChunks (ctx : ImageTransfer) : List Nat :=
  ((List.range ctx.totalChunks).filter (fun i => !ctx.chunkReceived.getD i false)).take 5

/-- Comma-joined decimal list. -/
def joinComma : List Nat → List Char
  | [] => []
  | [x] => natStr x
  | x :: rest => natStr x ++ ',' :: joinComma rest

/-- `imageEnd` from image.cpp (lines 214-265).  On success the temp sink is
renamed: the second component carries the final filename with the file bytes.
The context is then reset by `initImageTransfer`. -/
def imageEnd (ctx : ImageTransfer) (file : List Nat) :
    ImageTransfer × Option (List Char × List Nat) × List (List Char) × Bool :=
  if ctx.state ≠ .receiving then (ctx, none, [strL "ERR:IMG_NOT_STARTED"], false)
  else if ctx.receivedChunks < ctx.totalChunks then
    (ctx, none, [strL "ERR:IMG_MISSING:" ++ joinComma (missingChunks ctx)], false)
  else
    (initImageTransfer, some (ctx.filename, file),
     [strL "OK:IMG_COMPLETE:" ++ ctx.filename ++ strL ":" ++ natStr ctx.currentSize ++ strL "B"],
     true)

/-- A prior nonvolatile content crafted against the deviant entries of
`crc32_table` (indices 42, 43, 95 differ from the IEEE CRC-32 table): after
`saveStateWithCRC` over this store, flipping bit 0 of byte 11 leaves the
computed CRC unchanged, so the corruption passes verification.  Bytes
[0,11) are irrelevant (the save overwrites them); bytes [11,100) are
residual data that the CRC window also covers. -/
def seuCollisionEEPROM : EEPROM :=
  fun a => List.getD
    [171, 0, 0, 0, 0, 0, 0, 0, 0, 0, 0, 31, 115, 36, 25,
     101, 76, 212, 250, 0, 43, 64, 203, 189, 16, 204, 106, 119, 96, 219,
     42, 214, 187, 187, 219, 0, 0, 0, 0, 43, 64, 203, 188, 172, 0,
     0, 0, 0, 0, 0, 0, 0, 0, 0, 95, 101, 76, 212, 250, 0,
     0, 0, 0, 0, 0, 0, 0, 0, 42, 214, 187, 187, 219, 0, 0,
     0, 0, 0, 0, 42, 214, 187, 187, 219, 0, 0, 0, 0, 0, 0,
     0, 2, 115, 4, 66, 58, 250, 0, 0, 0] a 0

end OrbitalTemple

/-- C8: CRC32 reference vectors: crc32 of "123456789" is 0xCBF43926, of the
empty input 0x00000000, of the single byte 0x00 is 0xD202EF8D, and of "hello"
is 0x3610A686. -/
theorem OrbitalTemple.crc32_reference_vectors :
    OrbitalTemple.calculateCRC32 [49, 50, 51, 52, 53, 54, 55, 56, 57] = 0xCBF43926 ∧
    OrbitalTemple.calculateCRC32 [] = 0x00000000 ∧
    OrbitalTemple.calculateCRC32 [0x00] = 0xD202EF8D ∧
    OrbitalTemple.calculateCRC32 [104, 101, 108, 108, 111] = 0x3610A686 := by
  refine ⟨by decide, by decide, by decide, by decide⟩

namespace OrbitalTemple

/-- Helper: one deployment tick preserves the burn-wire safety invariant
"if not Heating then R1 is LOW". -/
theorem burnWireInv_step (c : AntCtx) (now : Nat) (sw : Bool)
    (h : c.antennaState ≠ .heating → c.r1 = false) :
    (handleAntennaDeployment c now sw).1.antennaState ≠ .heating →
      (handleAntennaDeployment c now sw).1.r1 = false := by
  obtain ⟨a, cs, st, rc, ad, r1, mst⟩ := c
  cases a <;> simp_all [handleAntennaDeployment] <;> split_ifs <;> simp_all

end OrbitalTemple

/-- C3: for every TMR cell with at most one of the three copies differing
from the value last written, `tmrRead` returns the written value and
`tmrScrub` makes all three copies equal to it, returning true exactly when a
correction was made; when all three copies are pairwise distinct, `tmrRead`
returns copy1. -/
theorem OrbitalTemple.tmr_correction {α : Type _} [DecidableEq α] :
    (∀ (v : α) (t : OrbitalTemple.TMR α),
      (t.copy1 = v ∧ t.copy2 = v) ∨ (t.copy1 = v ∧ t.copy3 = v) ∨
        (t.copy2 = v ∧ t.copy3 = v) →
      OrbitalTemple.tmrRead t = v ∧
        (OrbitalTemple.tmrScrub t).1 = OrbitalTemple.tmrWrite v ∧
        ((OrbitalTemple.tmrScrub t).2 = true ↔ t ≠ OrbitalTemple.tmrWrite v)) ∧
    (∀ t : OrbitalTemple.TMR α, t.copy1 ≠ t.copy2 → t.copy1 ≠ t.copy3 →
      t.copy2 ≠ t.copy3 → OrbitalTemple.tmrRead t = t.copy1) := by
  constructor
  · rintro v ⟨a, b, c⟩ h
    have hread : OrbitalTemple.tmrRead ⟨a, b, c⟩ = v := by
      rcases h with ⟨h1, h2⟩ | ⟨h1, h3⟩ | ⟨h2, h3⟩ <;> subst_vars <;>
        simp only [OrbitalTemple.tmrRead] <;> split_ifs <;> simp_all
    refine ⟨hread, ?_, ?_⟩
    · simp only [OrbitalTemple.tmrScrub, OrbitalTemple.tmrWrite, hread]
      split_ifs <;> simp_all
    · simp [OrbitalTemple.tmrScrub, OrbitalTemple.tmrWrite, hread,
        Bool.or_eq_true, decide_eq_true_eq, OrbitalTemple.TMR.mk.injEq]
      tauto
  · rintro ⟨a, b, c⟩ h1 h2 h3
    simp_all [OrbitalTemple.tmrRead]

/-- Witness for C3 at a concrete Nat cell with one corrupted copy. -/
theorem OrbitalTemple.tmr_correction_witness :
    OrbitalTemple.tmrRead (OrbitalTemple.TMR.mk 5 5 9) = 5 ∧
      (OrbitalTemple.tmrScrub (OrbitalTemple.TMR.mk 5 5 9)).1 = OrbitalTemple.tmrWrite 5 ∧
      ((OrbitalTemple.tmrScrub (OrbitalTemple.TMR.mk 5 5 9)).2 = true ↔
        OrbitalTemple.TMR.mk 5 5 9 ≠ OrbitalTemple.tmrWrite 5) :=
  (OrbitalTemple.tmr_correction (α := Nat)).1 5 (OrbitalTemple.TMR.mk 5 5 9)
    (Or.inl ⟨rfl, rfl⟩)

/-- C9: the beacon interval is 60,000 ms before ground contact; once contact
is established it is 300,000 ms when more than 86,400,000 ms have elapsed
since the last contact, and 3,600,000 ms otherwise. -/
theorem OrbitalTemple.beacon_interval_selection (gc : Bool) (now last : Nat) :
    (gc = false → OrbitalTemple.getBeaconInterval gc now last = 60000) ∧
    (gc = true → 86400000 < OrbitalTemple.wrapSub now last →
      OrbitalTemple.getBeaconInterval gc now last = 300000) ∧
    (gc = true → OrbitalTemple.wrapSub now last ≤ 86400000 →
      OrbitalTemple.getBeaconInterval gc now last = 3600000) := by
  refine ⟨fun h => ?_, fun h h2 => ?_, fun h h2 => ?_⟩ <;> subst h <;>
    simp [OrbitalTemple.getBeaconInterval, OrbitalTemple.BEACON_LOST_THRESHOLD,
      OrbitalTemple.BEACON_INTERVAL_NO_CONTACT, OrbitalTemple.BEACON_INTERVAL_LOST,
      OrbitalTemple.BEACON_INTERVAL_NORMAL]
  · exact h2
  · omega

/-- Witness for C9 at concrete clock states. -/
theorem OrbitalTemple.beacon_interval_selection_witness :
    OrbitalTemple.getBeaconInterval false 0 0 = 60000 ∧
      OrbitalTemple.getBeaconInterval true 100000000 0 = 300000 ∧
      OrbitalTemple.getBeaconInterval true 1000 0 = 3600000 :=
  ⟨(OrbitalTemple.beacon_interval_selection false 0 0).1 rfl,
   (OrbitalTemple.beacon_interval_selection true 100000000 0).2.1 rfl (by decide),
   (OrbitalTemple.beacon_interval_selection true 1000 0).2.2 rfl (by decide)⟩

/-- C5 counterexample: with the cooling phase over, the switch still HIGH
and the retry counter reaching 3, the tick leaves the antenna sub-state in
Cooling — it does not transition to Complete as the claim states (only the
mission state changes). -/
theorem OrbitalTemple.ant_retry_exhausted_counterexample :
    (OrbitalTemple.handleAntennaDeployment
        ⟨.cooling, .deploying, 0, 2, false, false, 0⟩ 90000 true).1.antennaState ≠
      OrbitalTemple.AntennaState.complete ∧
    (OrbitalTemple.handleAntennaDeployment
        ⟨.cooling, .deploying, 0, 2, false, false, 0⟩ 90000 true).1.antennaState =
      OrbitalTemple.AntennaState.cooling := by
  decide

/-- C5 (amended): when the cooling phase ends with the switch still HIGH and
the retry counter reaches 3, the antenna sub-state REMAINS Cooling (the
machine is simply never ticked again once the mission state leaves
Deploying), the mission state becomes Operational, and
ERR:ANT_DEPLOY_FAILED is sent on the downlink. -/
theorem OrbitalTemple.ant_retry_exhausted (c : OrbitalTemple.AntCtx) (now : Nat)
    (hs : c.antennaState = .cooling)
    (helapsed : OrbitalTemple.DEPLOY_COOL_TIME ≤ OrbitalTemple.wrapSub now c.stateStartTime)
    (hretry : OrbitalTemple.DEPLOY_MAX_RETRIES ≤ c.deployRetryCount + 1) :
    (OrbitalTemple.handleAntennaDeployment c now true).1.antennaState = .cooling ∧
    (OrbitalTemple.handleAntennaDeployment c now true).1.currentState = .operational ∧
    (OrbitalTemple.handleAntennaDeployment c now true).2 =
      [OrbitalTemple.strL "ERR:ANT_DEPLOY_FAILED|" ++
        OrbitalTemple.getMissionTime now c.missionStartTime] := by
  obtain ⟨a, cs, st, rc, ad, r1, mst⟩ := c
  simp only at hs helapsed hretry
  subst hs
  simp [OrbitalTemple.handleAntennaDeployment, helapsed, hretry]

/-- Witness for C5 (amended) at the concrete cooling-phase state. -/
theorem OrbitalTemple.ant_retry_exhausted_witness :
    (OrbitalTemple.handleAntennaDeployment
        ⟨.cooling, .deploying, 0, 2, false, false, 0⟩ 90000 true).1.antennaState = .cooling ∧
    (OrbitalTemple.handleAntennaDeployment
        ⟨.cooling, .deploying, 0, 2, false, false, 0⟩ 90000 true).1.currentState = .operational ∧
    (OrbitalTemple.handleAntennaDeployment
        ⟨.cooling, .deploying, 0, 2, false, false, 0⟩ 90000 true).2 =
      [OrbitalTemple.strL "ERR:ANT_DEPLOY_FAILED|" ++ OrbitalTemple.getMissionTime 90000 0] :=
  OrbitalTemple.ant_retry_exhausted ⟨.cooling, .deploying, 0, 2, false, false, 0⟩ 90000
    rfl (by decide) (by decide)

/-- C4: starting from Idle with the burn-wire pin LOW, after any sequence of
deployment ticks, whenever the sub-state is not Heating the burn-wire GPIO
is LOW (the pin is driven HIGH only while Heating). -/
theorem OrbitalTemple.antenna_burnwire_safety (c0 : OrbitalTemple.AntCtx)
    (inputs : List (Nat × Bool)) (h0 : c0.antennaState = .idle) (hr : c0.r1 = false) :
    (OrbitalTemple.antRun c0 inputs).antennaState ≠ .heating →
      (OrbitalTemple.antRun c0 inputs).r1 = false := by
  have key : ∀ (c : OrbitalTemple.AntCtx), (c.antennaState ≠ .heating → c.r1 = false) →
      ((OrbitalTemple.antRun c inputs).antennaState ≠ .heating →
        (OrbitalTemple.antRun c inputs).r1 = false) := by
    induction inputs with
    | nil => exact fun c h => h
    | cons i rest ih =>
      intro c h
      exact ih _ (OrbitalTemple.burnWireInv_step c i.1 i.2 h)
  exact key c0 (fun _ => hr)

/-- Witness for C4: a heat-then-cool run ends with the burn-wire LOW. -/
theorem OrbitalTemple.antenna_burnwire_safety_witness :
    (OrbitalTemple.antRun ⟨.idle, .deploying, 0, 0, false, false, 0⟩
        [(5, true), (90005, true)]).r1 = false :=
  OrbitalTemple.antenna_burnwire_safety ⟨.idle, .deploying, 0, 0, false, false, 0⟩
    [(5, true), (90005, true)] rfl rfl (by decide)

/-- C1 counterexample: `validateMessage` accepts a frame with an EMPTY
command field (the alphanumeric loop is vacuous), which the claim's
acceptance predicate rejects, so the claimed "if and only if" fails.  Here
the HMAC oracle accepts everything, so the HMAC clause holds on both sides. -/
theorem OrbitalTemple.frame_acceptance_counterexample :
    (OrbitalTemple.validateMessage (fun _ _ => true)
        (OrbitalTemple.strL "S") (OrbitalTemple.strL "S-&@#aa")).1 = true ∧
    OrbitalTemple.specAccepts (fun _ _ => true)
        (OrbitalTemple.strL "S") (OrbitalTemple.strL "S-&@#aa") = false := by
  decide

/-- C1 (amended): `validateMessage` accepts a frame iff its length is in
[7,500], each of the four delimiters occurs AT LEAST once with their FIRST
occurrences in strictly increasing positions, the satId prefix equals the
local satellite id, the command field is entirely alphanumeric (possibly
empty), the path contains no "..", and the HMAC oracle accepts the prefix
before the first '#' against the supplied digest. -/
theorem OrbitalTemple.frame_acceptance (hmacOk : List Char → List Char → Bool)
    (sid msg : List Char) :
    (OrbitalTemple.validateMessage hmacOk sid msg).1 =
      OrbitalTemple.amendedAccepts hmacOk sid msg := by
  unfold OrbitalTemple.validateMessage OrbitalTemple.amendedAccepts
  by_cases h7 : msg.length < 7
  · have h7' : ¬ 7 ≤ msg.length := by omega
    simp [h7, h7']
  by_cases h500 : 500 < msg.length
  · have h500' : ¬ msg.length ≤ 500 := by omega
    simp [h7, h500, h500']
  have h7' : 7 ≤ msg.length := by omega
  have h500' : msg.length ≤ 500 := by omega
  simp only [if_neg h7, if_neg h500]
  cases hd : OrbitalTemple.delimIdx msg with
  | none => simp
  | some q =>
    obtain ⟨d, a, t, h⟩ := q
    by_cases hsid : OrbitalTemple.subList msg 0 d = sid <;>
      by_cases hcmd : (OrbitalTemple.subList msg (d + 1) a).all Char.isAlphanum <;>
      by_cases hdd : OrbitalTemple.containsDotDot (OrbitalTemple.subList msg (a + 1) t) <;>
      by_cases hh : hmacOk (msg.take h) (msg.drop (h + 1)) <;>
      simp [h7', h500', hsid, hcmd, hdd, hh]

/-- C7: for every frame rejected by `validateMessage`, rejections for
length, missing or mis-ordered delimiters, wrong satellite id, or a
non-alphanumeric command transmit nothing; a path-traversal rejection
transmits exactly ERR:PATH_TRAVERSAL_BLOCKED and an HMAC rejection exactly
ERR:AUTH_FAILED; no other response is ever transmitted (acceptance also
transmits nothing). -/
theorem OrbitalTemple.rejection_responses (hmacOk : List Char → List Char → Bool)
    (sid msg : List Char) :
    ((OrbitalTemple.validateMessage hmacOk sid msg).2 = [] ∨
     (OrbitalTemple.validateMessage hmacOk sid msg).2 =
       [OrbitalTemple.strL "ERR:PATH_TRAVERSAL_BLOCKED"] ∨
     (OrbitalTemple.validateMessage hmacOk sid msg).2 =
       [OrbitalTemple.strL "ERR:AUTH_FAILED"]) ∧
    ((OrbitalTemple.validateMessage hmacOk sid msg).1 = true →
      (OrbitalTemple.validateMessage hmacOk sid msg).2 = []) ∧
    (msg.length < 7 ∨ 500 < msg.length →
      (OrbitalTemple.validateMessage hmacOk sid msg).2 = []) ∧
    (OrbitalTemple.delimIdx msg = none →
      (OrbitalTemple.validateMessage hmacOk sid msg).2 = []) ∧
    (∀ d a t h, OrbitalTemple.delimIdx msg = some (d, a, t, h) →
      (OrbitalTemple.subList msg 0 d ≠ sid →
        (OrbitalTemple.validateMessage hmacOk sid msg).2 = []) ∧
      (¬ (OrbitalTemple.subList msg (d + 1) a).all Char.isAlphanum →
        (OrbitalTemple.validateMessage hmacOk sid msg).2 = []) ∧
      (7 ≤ msg.length → msg.length ≤ 500 →
        OrbitalTemple.subList msg 0 d = sid →
        (OrbitalTemple.subList msg (d + 1) a).all Char.isAlphanum →
        OrbitalTemple.containsDotDot (OrbitalTemple.subList msg (a + 1) t) = true →
        OrbitalTemple.validateMessage hmacOk sid msg =
          (false, [OrbitalTemple.strL "ERR:PATH_TRAVERSAL_BLOCKED"])) ∧
      (7 ≤ msg.length → msg.length ≤ 500 →
        OrbitalTemple.subList msg 0 d = sid →
        (OrbitalTemple.subList msg (d + 1) a).all Char.isAlphanum →
        OrbitalTemple.containsDotDot (OrbitalTemple.subList msg (a + 1) t) = false →
        hmacOk (msg.take h) (msg.drop (h + 1)) = false →
        OrbitalTemple.validateMessage hmacOk sid msg =
          (false, [OrbitalTemple.strL "ERR:AUTH_FAILED"]))) := by
  unfold OrbitalTemple.validateMessage
  by_cases h7 : msg.length < 7
  · refine ⟨by simp [h7], by simp [h7], by simp [h7], by simp [h7], ?_⟩
    intro d a t h hd
    refine ⟨by simp [h7], by simp [h7], ?_, ?_⟩ <;> intros <;> omega
  by_cases h500 : 500 < msg.length
  · refine ⟨by simp [h7, h500], by simp [h7, h500], by simp [h7, h500],
      by simp [h7, h500], ?_⟩
    intro d a t h hd
    refine ⟨by simp [h7, h500], by simp [h7, h500], ?_, ?_⟩ <;> intros <;> omega
  simp only [if_neg h7, if_neg h500]
  cases hd : OrbitalTemple.delimIdx msg with
  | none => simp
  | some q =>
    obtain ⟨d, a, t, h⟩ := q
    refine ⟨?_, ?_, ?_, by simp, ?_⟩
    · by_cases hsid : OrbitalTemple.subList msg 0 d = sid <;>
        by_cases hcmd : (OrbitalTemple.subList msg (d + 1) a).all Char.isAlphanum <;>
        by_cases hdd : OrbitalTemple.containsDotDot (OrbitalTemple.subList msg (a + 1) t) <;>
        by_cases hh : hmacOk (msg.take h) (msg.drop (h + 1)) <;>
        simp [hsid, hcmd, hdd, hh]
    · by_cases hsid : OrbitalTemple.subList msg 0 d = sid <;>
        by_cases hcmd : (OrbitalTemple.subList msg (d + 1) a).all Char.isAlphanum <;>
        by_cases hdd : OrbitalTemple.containsDotDot (OrbitalTemple.subList msg (a + 1) t) <;>
        by_cases hh : hmacOk (msg.take h) (msg.drop (h + 1)) <;>
        simp [hsid, hcmd, hdd, hh]
    · rintro (hl | hl)
      · exact absurd hl h7
      · exact absurd hl h500
    · rintro d' a' t' h' hd'
      obtain ⟨rfl, rfl, rfl, rfl⟩ : d = d' ∧ a = a' ∧ t = t' ∧ h = h' := by
        simpa [Prod.ext_iff] using Option.some.inj hd'
      refine ⟨fun hsid => by simp [hsid], fun hcmd => ?_,
        fun _ _ hsid hcmd hdd => by simp [hsid, hcmd, hdd],
        fun _ _ hsid hcmd hdd hh => by simp [hsid, hcmd, hdd, hh]⟩
      by_cases hsid : OrbitalTemple.subList msg 0 d = sid <;> simp [hsid, hcmd]

namespace OrbitalTemple

/-! ### CRC and EEPROM lemmas supporting the checkpoint claims.

Note: the shipped `crc32_table` is NOT the standard IEEE CRC-32 table — the
entries at indices 42, 43 and 95 deviate from the table generated by the
polynomial 0xEDB88320 (0xDBBBBBD6 vs 0xDBBBC9D6, 0xACBCCB40 vs 0xACBCF940,
0xFAD44C65 vs 0xFBD44C65).  This costs the code the single-bit-error
detection property inside the CRC window. -/

set_option maxRecDepth 4096 in
theorem table_lt : ∀ i, i < 256 → crc32_table i < 4294967296 := by decide

/-- The CRC accumulator stays below 2^32. -/
theorem crcUpd_lt {c : Nat} (hc : c < 4294967296) (b : Nat) : crcUpd c b < 4294967296 := by
  unfold crcUpd
  have h256 : (2 : Nat) ^ 8 = 256 := by norm_num
  have h1 : c >>> 8 < 4294967296 := by
    rw [Nat.shiftRight_eq_div_pow, h256]; omega
  have h2 : crc32_table ((c ^^^ b) &&& 0xFF) < 4294967296 := by
    refine table_lt _ ?_
    have := Nat.and_le_right (n := c ^^^ b) (m := 0xFF); omega
  have h32 : (4294967296 : Nat) = 2 ^ 32 := by norm_num
  rw [h32] at h1 h2 ⊢
  exact Nat.xor_lt_two_pow h1 h2

theorem foldl_crcUpd_lt : ∀ (l : List Nat) (c : Nat), c < 4294967296 →
    l.foldl crcUpd c < 4294967296 := by
  intro l
  induction l with
  | nil => intro c hc; exact hc
  | cons b rest ih => intro c hc; exact ih _ (crcUpd_lt hc b)

/-- The computed CRC value fits in a `uint32_t`. -/
theorem calculateCRC32_lt (data : List Nat) : calculateCRC32 data < 4294967296 := by
  unfold calculateCRC32
  have h1 := foldl_crcUpd_lt data 0xFFFFFFFF (by norm_num)
  have h32 : (4294967296 : Nat) = 2 ^ 32 := by norm_num
  rw [h32] at h1 ⊢
  exact Nat.xor_lt_two_pow h1 (by norm_num)

set_option maxRecDepth 8192 in
/-- Flipping a bit of a byte changes it and keeps it a byte. -/
theorem byte_flip : ∀ b, b < 256 → ∀ j, j < 8 → b ^^^ 2 ^ j ≠ b ∧ b ^^^ 2 ^ j < 256 := by
  decide

theorem magic_flip : ∀ j, j < 8 → 0xAB ^^^ 2 ^ j ≠ 0xAB := by decide

theorem eepromWrite_ne {e : EEPROM} {addr v a : Nat} (h : a ≠ addr) :
    eepromWrite e addr v a = e a := by
  simp [eepromWrite, h]

theorem eepromWrite_eq (e : EEPROM) (addr v : Nat) : eepromWrite e addr v addr = v := by
  simp [eepromWrite]

theorem eepromPut32_out {e : EEPROM} {addr v a : Nat} (h : a < addr ∨ addr + 3 < a) :
    eepromPut32 e addr v a = e a := by
  unfold eepromPut32
  rw [eepromWrite_ne (by omega), eepromWrite_ne (by omega), eepromWrite_ne (by omega),
    eepromWrite_ne (by omega)]

theorem eepromPut32_b0 (e : EEPROM) (addr v : Nat) :
    eepromPut32 e addr v addr = v % 256 := by
  unfold eepromPut32
  rw [eepromWrite_ne (by omega), eepromWrite_ne (by omega), eepromWrite_ne (by omega),
    eepromWrite_eq]

theorem eepromPut32_b1 (e : EEPROM) (addr v : Nat) :
    eepromPut32 e addr v (addr + 1) = v / 256 % 256 := by
  unfold eepromPut32
  rw [eepromWrite_ne (by omega), eepromWrite_ne (by omega), eepromWrite_eq]

theorem eepromPut32_b2 (e : EEPROM) (addr v : Nat) :
    eepromPut32 e addr v (addr + 2) = v / 65536 % 256 := by
  unfold eepromPut32
  rw [eepromWrite_ne (by omega), eepromWrite_eq]

theorem eepromPut32_b3 (e : EEPROM) (addr v : Nat) :
    eepromPut32 e addr v (addr + 3) = v / 16777216 % 256 := by
  unfold eepromPut32
  rw [eepromWrite_eq]

/-- Reading a `uint32_t` back from its four little-endian bytes. -/
theorem eepromGet32_put32 (e : EEPROM) (addr v : Nat) :
    eepromGet32 (eepromPut32 e addr v) addr = v % U32 := by
  unfold eepromGet32 U32
  rw [eepromPut32_b0, eepromPut32_b1, eepromPut32_b2, eepromPut32_b3]
  omega

theorem eepromGet32_put32_out {e : EEPROM} {addr v a : Nat}
    (h : a + 3 < addr ∨ addr + 3 < a) :
    eepromGet32 (eepromPut32 e addr v) a = eepromGet32 e a := by
  unfold eepromGet32
  rw [eepromPut32_out (by omega), eepromPut32_out (by omega), eepromPut32_out (by omega),
    eepromPut32_out (by omega)]

theorem eepromGet32_write_out {e : EEPROM} {addr v a : Nat}
    (h : a + 3 < addr ∨ addr < a) :
    eepromGet32 (eepromWrite e addr v) a = eepromGet32 e a := by
  unfold eepromGet32
  rw [eepromWrite_ne (by omega), eepromWrite_ne (by omega), eepromWrite_ne (by omega),
    eepromWrite_ne (by omega)]

/-- The CRC window only looks at bytes [0, 100). -/
theorem crcWindow_congr {e1 e2 : EEPROM} (h : ∀ a, a < 100 → e1 a = e2 a) :
    crcWindow e1 = crcWindow e2 := by
  unfold crcWindow EEPROM_CRC_OFFSET
  exact List.map_congr_left (fun a ha => h a (List.mem_range.mp ha))

end OrbitalTemple

namespace OrbitalTemple

theorem saveFields_magic (e : EEPROM) (s : PersistState) : saveFields e s 0 = 0xAB := by
  unfold saveFields EEPROM_ADDR_MAGIC EEPROM_ADDR_STATE EEPROM_ADDR_BOOTCOUNT
    EEPROM_ADDR_DEPLOY_OK EEPROM_ADDR_MISSION_START EEPROM_MAGIC
  rw [eepromPut32_out (by omega), eepromWrite_ne (by omega), eepromPut32_out (by omega),
    eepromWrite_ne (by omega), eepromWrite_eq]

theorem saveFields_deploy (e : EEPROM) (s : PersistState) :
    saveFields e s 6 = (if s.antennaDeployed then 1 else 0) := by
  unfold saveFields EEPROM_ADDR_DEPLOY_OK EEPROM_ADDR_MISSION_START
  rw [eepromPut32_out (by omega), eepromWrite_eq]

theorem saveFields_boot (e : EEPROM) (s : PersistState) :
    eepromGet32 (saveFields e s) 2 = s.bootCount % U32 := by
  unfold saveFields EEPROM_ADDR_BOOTCOUNT EEPROM_ADDR_DEPLOY_OK EEPROM_ADDR_MISSION_START
  rw [eepromGet32_put32_out (by omega), eepromGet32_write_out (by omega), eepromGet32_put32]

theorem saveFields_mission (e : EEPROM) (s : PersistState) :
    eepromGet32 (saveFields e s) 7 = s.missionStartTime % U32 := by
  unfold saveFields EEPROM_ADDR_MISSION_START
  rw [eepromGet32_put32]

/-- The byte image of `saveStateWithCRC` below offset 100 is that of
`saveFields`. -/
theorem save_below_crc (e : EEPROM) (s : PersistState) {a : Nat} (ha : a < 100) :
    saveStateWithCRC e s a = saveFields e s a := by
  unfold saveStateWithCRC EEPROM_CRC_OFFSET
  exact eepromPut32_out (by omega)

theorem save_window (e : EEPROM) (s : PersistState) :
    crcWindow (saveStateWithCRC e s) = crcWindow (saveFields e s) :=
  crcWindow_congr (fun a ha => save_below_crc e s ha)

/-- A checkpoint save followed by a load: the load verifies and returns the
saved boot count, deployed flag and mission start (reduced to `uint32_t`),
with the mission state derived from the deployed flag rather than restored. -/
theorem load_save (e : EEPROM) (s : PersistState) :
    loadStateWithCRC (saveStateWithCRC e s) = some
      { currentState := if s.antennaDeployed then STATE_OPERATIONAL else STATE_BOOT,
        bootCount := s.bootCount % U32,
        antennaDeployed := s.antennaDeployed,
        missionStartTime := s.missionStartTime % U32 } := by
  have hU : U32 = 4294967296 := rfl
  have hcrcU : calculateCRC32 (crcWindow (saveFields e s)) < 4294967296 :=
    calculateCRC32_lt _
  unfold loadStateWithCRC EEPROM_ADDR_MAGIC EEPROM_MAGIC EEPROM_CRC_OFFSET
    EEPROM_ADDR_BOOTCOUNT EEPROM_ADDR_DEPLOY_OK EEPROM_ADDR_MISSION_START
  rw [save_window]
  rw [save_below_crc e s (by omega : (0:Nat) < 100), saveFields_magic]
  have hstored : eepromGet32 (saveStateWithCRC e s) 100 =
      calculateCRC32 (crcWindow (saveFields e s)) := by
    unfold saveStateWithCRC EEPROM_CRC_OFFSET
    rw [eepromGet32_put32, hU, Nat.mod_eq_of_lt hcrcU]
  rw [hstored]
  rw [if_neg (by simp), if_neg (by simp)]
  rw [save_below_crc e s (by omega : (6:Nat) < 100), saveFields_deploy]
  have hboot : eepromGet32 (saveStateWithCRC e s) 2 = s.bootCount % U32 := by
    unfold saveStateWithCRC EEPROM_CRC_OFFSET
    rw [eepromGet32_put32_out (by omega), saveFields_boot]
  have hmis : eepromGet32 (saveStateWithCRC e s) 7 = s.missionStartTime % U32 := by
    unfold saveStateWithCRC EEPROM_CRC_OFFSET
    rw [eepromGet32_put32_out (by omega), saveFields_mission]
  rw [hboot, hmis]
  cases s.antennaDeployed <;> simp

end OrbitalTemple

namespace OrbitalTemple

/-- A single-event upset in the magic byte is always caught. -/
theorem load_save_flip_magic (e : EEPROM) (s : PersistState) {j : Nat} (hj : j < 8) :
    loadStateWithCRC (flipBit (saveStateWithCRC e s) 0 j) = none := by
  have h0 : flipBit (saveStateWithCRC e s) 0 j 0 = 0xAB ^^^ 2 ^ j := by
    unfold flipBit
    rw [eepromWrite_eq, save_below_crc e s (by omega : (0:Nat) < 100), saveFields_magic]
  unfold loadStateWithCRC EEPROM_ADDR_MAGIC EEPROM_MAGIC
  rw [h0, if_pos (magic_flip j hj)]

/-- A single-event upset in the stored CRC bytes [100,104) is always caught. -/
theorem load_save_flip_crc (e : EEPROM) (s : PersistState) {k j : Nat}
    (hk1 : 100 ≤ k) (hk2 : k < 104) (hj : j < 8) :
    loadStateWithCRC (flipBit (saveStateWithCRC e s) k j) = none := by
  have hcrcU : calculateCRC32 (crcWindow (saveFields e s)) < 4294967296 :=
    calculateCRC32_lt _
  set crc := calculateCRC32 (crcWindow (saveFields e s)) with hcrcdef
  have hm : flipBit (saveStateWithCRC e s) k j 0 = 0xAB := by
    unfold flipBit
    rw [eepromWrite_ne (by omega), save_below_crc e s (by omega : (0:Nat) < 100),
      saveFields_magic]
  have hwin : crcWindow (flipBit (saveStateWithCRC e s) k j) =
      crcWindow (saveFields e s) := by
    refine crcWindow_congr (fun a ha => ?_)
    unfold flipBit
    rw [eepromWrite_ne (by omega), save_below_crc e s ha]
  -- the four stored CRC bytes of the save
  have hb0 : saveStateWithCRC e s 100 = crc % 256 := by
    unfold saveStateWithCRC EEPROM_CRC_OFFSET
    exact eepromPut32_b0 _ _ _
  have hb1 : saveStateWithCRC e s 101 = crc / 256 % 256 := by
    unfold saveStateWithCRC EEPROM_CRC_OFFSET
    have := eepromPut32_b1 (saveFields e s) 100 crc
    norm_num at this
    exact this
  have hb2 : saveStateWithCRC e s 102 = crc / 65536 % 256 := by
    unfold saveStateWithCRC EEPROM_CRC_OFFSET
    have := eepromPut32_b2 (saveFields e s) 100 crc
    norm_num at this
    exact this
  have hb3 : saveStateWithCRC e s 103 = crc / 16777216 % 256 := by
    unfold saveStateWithCRC EEPROM_CRC_OFFSET
    have := eepromPut32_b3 (saveFields e s) 100 crc
    norm_num at this
    exact this
  have hstored : eepromGet32 (flipBit (saveStateWithCRC e s) k j) 100 ≠ crc := by
    unfold eepromGet32 flipBit
    interval_cases k
    · rw [eepromWrite_eq, eepromWrite_ne (by omega), eepromWrite_ne (by omega),
        eepromWrite_ne (by omega), hb0, hb1, hb2, hb3]
      have hfl := byte_flip (crc % 256) (by omega) j hj
      omega
    · rw [eepromWrite_ne (by omega), eepromWrite_eq, eepromWrite_ne (by omega),
        eepromWrite_ne (by omega), hb0, hb1, hb2, hb3]
      have hfl := byte_flip (crc / 256 % 256) (by omega) j hj
      omega
    · rw [eepromWrite_ne (by omega), eepromWrite_ne (by omega), eepromWrite_eq,
        eepromWrite_ne (by omega), hb0, hb1, hb2, hb3]
      have hfl := byte_flip (crc / 65536 % 256) (by omega) j hj
      omega
    · rw [eepromWrite_ne (by omega), eepromWrite_ne (by omega), eepromWrite_ne (by omega),
        eepromWrite_eq, hb0, hb1, hb2, hb3]
      have hfl := byte_flip (crc / 16777216 % 256) (by omega) j hj
      omega
  unfold loadStateWithCRC EEPROM_ADDR_MAGIC EEPROM_MAGIC EEPROM_CRC_OFFSET
  rw [hm, hwin, if_neg (by simp)]
  rw [if_pos hstored]

/-- On a failed load the firmware initializes with safe defaults. -/
theorem init_defaults {e : EEPROM} (h : loadStateWithCRC e = none) :
    initRadiationProtection e =
      { currentState := STATE_BOOT, bootCount := 1,
        antennaDeployed := false, missionStartTime := 0 } := by
  unfold initRadiationProtection
  rw [h]

end OrbitalTemple

set_option maxRecDepth 100000 in
/-- C2 counterexample: (i) a save/load round trip does NOT restore the saved
mission state — saving state 1 (WaitDeploy) with the antenna not deployed
loads back state 0 (Boot), because `loadStateWithCRC` derives the state from
the deployed flag; (ii) flipping a single bit (byte 11, bit 0) of a saved
checkpoint over the crafted residual store is NOT detected: the load still
returns ok, because `crc32_table` deviates from the IEEE CRC-32 table at
indices 42, 43 and 95, destroying the single-bit-error guarantee. -/
theorem OrbitalTemple.checkpoint_claim_counterexample :
    OrbitalTemple.loadStateWithCRC
        (OrbitalTemple.saveStateWithCRC (fun _ => 0) ⟨1, 5, false, 0⟩) ≠
      some ⟨1, 5, false, 0⟩ ∧
    OrbitalTemple.loadStateWithCRC
        (OrbitalTemple.saveStateWithCRC (fun _ => 0) ⟨1, 5, false, 0⟩) =
      some ⟨0, 5, false, 0⟩ ∧
    OrbitalTemple.loadStateWithCRC
        (OrbitalTemple.flipBit
          (OrbitalTemple.saveStateWithCRC OrbitalTemple.seuCollisionEEPROM
            ⟨0, 0, false, 0⟩) 11 0) ≠ none := by
  refine ⟨by decide, by decide, by decide⟩

/-- C2 (amended): after any sequence of checkpoint saves, `loadStateWithCRC`
returns ok and restores the most recently saved boot count, antenna-deployed
flag and mission start timestamp (as uint32 values), while the mission state
is derived from the deployed flag (Operational if deployed, else Boot)
rather than restored; flipping any single bit of the magic byte or of the
stored-CRC bytes [100,104) makes `loadStateWithCRC` return false (flips
inside the CRC data window (0,100) are not always detected, since
`crc32_table` deviates from the IEEE table at indices 42, 43, 95); after any
failed load the firmware initializes with safe defaults (state Boot, not
deployed, bootCount 1). -/
theorem OrbitalTemple.checkpoint_save_load (e : OrbitalTemple.EEPROM)
    (ss : List OrbitalTemple.PersistState) (s : OrbitalTemple.PersistState) (k j : Nat) :
    OrbitalTemple.loadStateWithCRC (OrbitalTemple.saveSeq e (ss ++ [s])) = some
      { currentState := if s.antennaDeployed then OrbitalTemple.STATE_OPERATIONAL
                        else OrbitalTemple.STATE_BOOT,
        bootCount := s.bootCount % OrbitalTemple.U32,
        antennaDeployed := s.antennaDeployed,
        missionStartTime := s.missionStartTime % OrbitalTemple.U32 } ∧
    (k = 0 ∨ 100 ≤ k ∧ k < 104 → j < 8 →
      OrbitalTemple.loadStateWithCRC
        (OrbitalTemple.flipBit (OrbitalTemple.saveSeq e (ss ++ [s])) k j) = none) ∧
    (∀ e2 : OrbitalTemple.EEPROM, OrbitalTemple.loadStateWithCRC e2 = none →
      OrbitalTemple.initRadiationProtection e2 =
        { currentState := OrbitalTemple.STATE_BOOT, bootCount := 1,
          antennaDeployed := false, missionStartTime := 0 }) := by
  have hseq : OrbitalTemple.saveSeq e (ss ++ [s]) =
      OrbitalTemple.saveStateWithCRC (OrbitalTemple.saveSeq e ss) s := by
    unfold OrbitalTemple.saveSeq
    rw [List.foldl_append]
    rfl
  refine ⟨?_, ?_, fun e2 h2 => OrbitalTemple.init_defaults h2⟩
  · rw [hseq]; exact OrbitalTemple.load_save _ s
  · rintro (rfl | ⟨hk1, hk2⟩) hj
    · rw [hseq]; exact OrbitalTemple.load_save_flip_magic _ s hj
    · rw [hseq]; exact OrbitalTemple.load_save_flip_crc _ s hk1 hk2 hj

/-- Witness for C2 (amended) at a concrete store, save, CRC-byte flip and
failed load. -/
theorem OrbitalTemple.checkpoint_save_load_witness :
    OrbitalTemple.loadStateWithCRC
        (OrbitalTemple.saveSeq (fun _ => 0) ([] ++ [⟨1, 5, false, 0⟩])) =
      some { currentState := OrbitalTemple.STATE_BOOT,
             bootCount := 5 % OrbitalTemple.U32, antennaDeployed := false,
             missionStartTime := 0 % OrbitalTemple.U32 } ∧
    OrbitalTemple.loadStateWithCRC
        (OrbitalTemple.flipBit
          (OrbitalTemple.saveSeq (fun _ => 0) ([] ++ [⟨1, 5, false, 0⟩])) 100 3) = none ∧
    OrbitalTemple.initRadiationProtection (fun _ => 1) =
      { currentState := OrbitalTemple.STATE_BOOT, bootCount := 1,
        antennaDeployed := false, missionStartTime := 0 } := by
  have h := OrbitalTemple.checkpoint_save_load (fun _ => 0) [] ⟨1, 5, false, 0⟩ 100 3
  exact ⟨by simpa using h.1, h.2.1 (Or.inr ⟨by omega, by omega⟩) (by omega),
    h.2.2 (fun _ => 1) (by decide)⟩

/-- C10: writing the first-accel-recording-done byte (0xAA at offset 200)
touches no byte that `loadStateWithCRC` reads, so the load's verdict and
every restored field are identical before and after the write. -/
theorem OrbitalTemple.first_accel_flag_preserves_checkpoint (e : OrbitalTemple.EEPROM) :
    OrbitalTemple.loadStateWithCRC (OrbitalTemple.checkFirstContactRecordingWrite e) =
      OrbitalTemple.loadStateWithCRC e := by
  have hb : ∀ a, a < 104 → OrbitalTemple.checkFirstContactRecordingWrite e a = e a := by
    intro a ha
    unfold OrbitalTemple.checkFirstContactRecordingWrite OrbitalTemple.EEPROM_FIRST_ACCEL_ADDR
    exact OrbitalTemple.eepromWrite_ne (by omega)
  have hwin : OrbitalTemple.crcWindow (OrbitalTemple.checkFirstContactRecordingWrite e) =
      OrbitalTemple.crcWindow e :=
    OrbitalTemple.crcWindow_congr (fun a ha => hb a (by omega))
  have hg : ∀ a, a + 3 < 104 →
      OrbitalTemple.eepromGet32 (OrbitalTemple.checkFirstContactRecordingWrite e) a =
        OrbitalTemple.eepromGet32 e a := by
    intro a ha
    unfold OrbitalTemple.eepromGet32
    rw [hb a (by omega), hb (a + 1) (by omega), hb (a + 2) (by omega), hb (a + 3) (by omega)]
  unfold OrbitalTemple.loadStateWithCRC OrbitalTemple.EEPROM_ADDR_MAGIC
    OrbitalTemple.EEPROM_CRC_OFFSET OrbitalTemple.EEPROM_ADDR_BOOTCOUNT
    OrbitalTemple.EEPROM_ADDR_DEPLOY_OK OrbitalTemple.EEPROM_ADDR_MISSION_START
  rw [hwin, hb 0 (by omega), hb 6 (by omega), hg 100 (by omega), hg 2 (by omega),
    hg 7 (by omega)]

/-- C6 counterexample: a complete transfer (1 chunk, expectedSize 300) whose
single chunk decodes to 3 bytes: `imageEnd` succeeds and renames, but the
final file holds 3 bytes, not the 300 bytes the claim promises — the code
never compares the bytes received against `expectedSize`. -/
theorem OrbitalTemple.image_expected_size_counterexample :
    (OrbitalTemple.imageEnd
        (OrbitalTemple.imageChunk
          (OrbitalTemple.imageStart OrbitalTemple.initImageTransfer
            (OrbitalTemple.strL "/img.jpg") 1 300 true true 0).1
          [] 0 (OrbitalTemple.strL "AAAA") 0).1
        (OrbitalTemple.imageChunk
          (OrbitalTemple.imageStart OrbitalTemple.initImageTransfer
            (OrbitalTemple.strL "/img.jpg") 1 300 true true 0).1
          [] 0 (OrbitalTemple.strL "AAAA") 0).2.1).2.2.2 = true ∧
    (OrbitalTemple.imageEnd
        (OrbitalTemple.imageChunk
          (OrbitalTemple.imageStart OrbitalTemple.initImageTransfer
            (OrbitalTemple.strL "/img.jpg") 1 300 true true 0).1
          [] 0 (OrbitalTemple.strL "AAAA") 0).1
        (OrbitalTemple.imageChunk
          (OrbitalTemple.imageStart OrbitalTemple.initImageTransfer
            (OrbitalTemple.strL "/img.jpg") 1 300 true true 0).1
          [] 0 (OrbitalTemple.strL "AAAA") 0).2.1).2.1 =
      some (OrbitalTemple.strL "/img.jpg", [0, 0, 0]) ∧
    (OrbitalTemple.imageChunk
        (OrbitalTemple.imageStart OrbitalTemple.initImageTransfer
          (OrbitalTemple.strL "/img.jpg") 1 300 true true 0).1
        [] 0 (OrbitalTemple.strL "AAAA") 0).1.expectedSize = 300 ∧
    ([0, 0, 0] : List Nat).length ≠ 300 := by
  refine ⟨by decide, by decide, by decide, by decide⟩

/-- C6 (amended): in phase Receiving, submitting the same valid chunk twice
replies OK:IMG_DUP:k on the second submission and leaves the context (mask
included) and the sink file exactly unchanged; `imageEnd` with all chunks
received renames the temp sink to the final filename and replies
OK:IMG_COMPLETE:<name>:<currentSize>B — reporting `currentSize`, the total
of decoded bytes, with no check against `expectedSize`. -/
theorem OrbitalTemple.image_idempotence (ctx : OrbitalTemple.ImageTransfer)
    (file : List Nat) (k : Nat) (dat : List Char) (n1 n2 : Nat)
    (hrecv : ctx.state = .receiving) (hk : k < ctx.totalChunks)
    (hklen : k < ctx.chunkReceived.length)
    (hbit : ctx.chunkReceived.getD k false = false)
    (hdec : OrbitalTemple.base64Decode dat (OrbitalTemple.IMAGE_CHUNK_SIZE + 10) ≠ []) :
    (OrbitalTemple.imageChunk (OrbitalTemple.imageChunk ctx file k dat n1).1
        (OrbitalTemple.imageChunk ctx file k dat n1).2.1 k dat n2 =
      ((OrbitalTemple.imageChunk ctx file k dat n1).1,
       (OrbitalTemple.imageChunk ctx file k dat n1).2.1,
       [OrbitalTemple.strL "OK:IMG_DUP:" ++ OrbitalTemple.natStr k], true)) ∧
    (∀ (ctx2 : OrbitalTemple.ImageTransfer) (f2 : List Nat), ctx2.state = .receiving →
      ctx2.receivedChunks = ctx2.totalChunks →
      OrbitalTemple.imageEnd ctx2 f2 =
        (OrbitalTemple.initImageTransfer, some (ctx2.filename, f2),
         [OrbitalTemple.strL "OK:IMG_COMPLETE:" ++ ctx2.filename ++
           OrbitalTemple.strL ":" ++ OrbitalTemple.natStr ctx2.currentSize ++
           OrbitalTemple.strL "B"], true)) := by
  constructor
  · have hk' : ¬ ctx.totalChunks ≤ k := by omega
    have hbit' : ctx.chunkReceived[k]?.getD false = false := by
      simpa [List.getD_eq_getElem?_getD] using hbit
    have hd' : ¬ (OrbitalTemple.base64Decode dat (OrbitalTemple.IMAGE_CHUNK_SIZE + 10)).length = 0 := by
      simpa [List.length_eq_zero] using hdec
    have hfst : (OrbitalTemple.imageChunk ctx file k dat n1).1 =
        { ctx with chunkReceived := ctx.chunkReceived.set k true,
                   receivedChunks := ctx.receivedChunks + 1,
                   currentSize := ctx.currentSize +
                     (OrbitalTemple.base64Decode dat (OrbitalTemple.IMAGE_CHUNK_SIZE + 10)).length,
                   lastChunkTime := n1 } := by
      unfold OrbitalTemple.imageChunk
      simp [hrecv, hk', hbit', hd']
    have hmask : ((OrbitalTemple.imageChunk ctx file k dat n1).1).chunkReceived.getD k false =
        true := by
      rw [hfst]
      simp only [List.getD_eq_getElem?_getD, List.getElem?_set_self hklen, Option.getD_some]
    have hstate : ((OrbitalTemple.imageChunk ctx file k dat n1).1).state = .receiving := by
      rw [hfst]; exact hrecv
    have htot : ¬ ((OrbitalTemple.imageChunk ctx file k dat n1).1).totalChunks ≤ k := by
      rw [hfst]; exact hk'
    have hmask' : ((OrbitalTemple.imageChunk ctx file k dat n1).1).chunkReceived[k]?.getD false =
        true := by
      simpa [List.getD_eq_getElem?_getD] using hmask
    have hdup : ∀ (c : OrbitalTemple.ImageTransfer) (f : List Nat),
        c.state = .receiving → ¬ c.totalChunks ≤ k → c.chunkReceived[k]?.getD false = true →
        OrbitalTemple.imageChunk c f k dat n2 =
          (c, f, [OrbitalTemple.strL "OK:IMG_DUP:" ++ OrbitalTemple.natStr k], true) := by
      intro c f h1 h2 h3
      unfold OrbitalTemple.imageChunk
      simp [h1, h2, h3]
    exact hdup _ _ hstate htot hmask' 
  · intro ctx2 f2 h1 h2
    unfold OrbitalTemple.imageEnd
    have h3 : ¬ ctx2.receivedChunks < ctx2.totalChunks := by omega
    simp [h1, h3]

/-- Witness for C6 (amended): a started 2-chunk transfer, chunk 0 submitted
twice, and a completed context finalized by `imageEnd`. -/
theorem OrbitalTemple.image_idempotence_witness :
    (OrbitalTemple.imageChunk
        (OrbitalTemple.imageChunk
          (OrbitalTemple.imageStart OrbitalTemple.initImageTransfer
            (OrbitalTemple.strL "img") 2 256 true true 0).1 [] 0
          (OrbitalTemple.strL "AAAA") 0).1
        (OrbitalTemple.imageChunk
          (OrbitalTemple.imageStart OrbitalTemple.initImageTransfer
            (OrbitalTemple.strL "img") 2 256 true true 0).1 [] 0
          (OrbitalTemple.strL "AAAA") 0).2.1 0 (OrbitalTemple.strL "AAAA") 5 =
      ((OrbitalTemple.imageChunk
          (OrbitalTemple.imageStart OrbitalTemple.initImageTransfer
            (OrbitalTemple.strL "img") 2 256 true true 0).1 [] 0
          (OrbitalTemple.strL "AAAA") 0).1,
       (OrbitalTemple.imageChunk
          (OrbitalTemple.imageStart OrbitalTemple.initImageTransfer
            (OrbitalTemple.strL "img") 2 256 true true 0).1 [] 0
          (OrbitalTemple.strL "AAAA") 0).2.1,
       [OrbitalTemple.strL "OK:IMG_DUP:" ++ OrbitalTemple.natStr 0], true)) ∧
    OrbitalTemple.imageEnd
        ⟨.receiving, OrbitalTemple.strL "f", 1, 1, 100, 3, 0, List.replicate 64 true⟩ [7] =
      (OrbitalTemple.initImageTransfer, some (OrbitalTemple.strL "f", [7]),
       [OrbitalTemple.strL "OK:IMG_COMPLETE:" ++ OrbitalTemple.strL "f" ++
         OrbitalTemple.strL ":" ++ OrbitalTemple.natStr 3 ++ OrbitalTemple.strL "B"],
       true) := by
  have h := OrbitalTemple.image_idempotence
    (OrbitalTemple.imageStart OrbitalTemple.initImageTransfer
      (OrbitalTemple.strL "img") 2 256 true true 0).1 [] 0
    (OrbitalTemple.strL "AAAA") 0 5 (by decide) (by decide) (by decide) (by decide)
    (by decide)
  exact ⟨h.1,
    h.2 ⟨.receiving, OrbitalTemple.strL "f", 1, 1, 100, 3, 0, List.replicate 64 true⟩ [7]
      rfl rfl⟩

/-- Witness for C7: a frame with ".." in its path is rejected with exactly
ERR:PATH_TRAVERSAL_BLOCKED. -/
theorem OrbitalTemple.rejection_responses_witness :
    OrbitalTemple.validateMessage (fun _ _ => true) (OrbitalTemple.strL "S")
        (OrbitalTemple.strL "S-R&..@#aa") =
      (false, [OrbitalTemple.strL "ERR:PATH_TRAVERSAL_BLOCKED"]) :=
  ((OrbitalTemple.rejection_responses (fun _ _ => true) (OrbitalTemple.strL "S")
      (OrbitalTemple.strL "S-R&..@#aa")).2.2.2.2 1 3 6 7 (by decide)).2.2.1
    (by decide) (by decide) (by decide) (by decide) (by decide)
